import Mathlib

/-!
Shallow embedding of `src/gretel_trainer/relational/sdk_extras.py`
(class `ExtendedGretelSDK`).

Python exceptions are modelled with `Except` / explicit error components;
Python dictionaries whose keys are strings are modelled as functions
`String → Option _`; the SDK side effects (artifact deletion, job
submission, logging, file writes) are modelled by returning the list of
calls performed, or the updated state, so that theorems can speak about
exactly which effects occur.
-/

/-- Errors a modelled Python fragment can raise.  `keyError` models
`KeyError` (raised by `d[k]` on a missing key), `typeError` models
`TypeError` (raised by subscripting or iterating a value of the wrong
shape), and `otherError` stands for any other exception (network, API,
filesystem, ...) coming out of the external SDK. -/
inductive PyError where
  | keyError
  | typeError
  | otherError
deriving DecidableEq, Repr

/-- The job status enum of the external SDK (`gretel_client...Status`);
its particular values are irrelevant to this module, which only passes
them through. -/
inductive Status where
  | created
  | pending
  | active
  | completed
  | cancelled
  | errored
  | lost
deriving DecidableEq, Repr

/-- The concrete variant of a `Job`: a `Model` (carrying `model_id`), a
`RecordHandler` (carrying `record_id`), or any other subtype. -/
inductive JobKind where
  | model (model_id : Option String)
  | record_handler (record_id : Option String)
  | other
deriving DecidableEq, Repr

/-- The slice of the SDK `Job` object read by `sdk_extras.py`:
`data_source`, the values of `ref_data`, the cached `status`, and the
behaviour of `refresh()` — `some s` means the refresh succeeds and the
job's status becomes `s`, `none` means `refresh()` raises. -/
structure Job where
  kind : JobKind
  data_source : Option String
  ref_data : List String
  status : Status
  refresh_outcome : Option Status
deriving DecidableEq, Repr

/-- Status update performed by a successful `job.refresh()`. -/
def Job.setStatus (j : Job) (s : Status) : Job :=
  ⟨j.kind, j.data_source, j.ref_data, s, j.refresh_outcome⟩

/-- The slice of the SDK `Project` object used here: its artifact
listing (`project.artifacts`), whose length feeds the capacity check. -/
structure Project where
  artifacts : List String
deriving DecidableEq, Repr

/-- The domain exception `MultiTableException` raised for unexpected job
variants. -/
structure MultiTableException where
  msg : String
deriving DecidableEq, Repr

/-- `MAX_PROJECT_ARTIFACTS = 10_000` from `sdk_extras.py`. -/
def MAX_PROJECT_ARTIFACTS : Nat := 10000

/-- `get_job_id`: the model id for a `Model`, the record id for a
`RecordHandler`, and `MultiTableException("Unexpected job object")` for
anything else. -/
def get_job_id (job : Job) : Except MultiTableException (Option String) :=
  match job.kind with
  | .model mid => .ok mid
  | .record_handler rid => .ok rid
  | .other => .error ⟨"Unexpected job object"⟩

/-- Result of `delete_data_sources`: the project after the deletions and
the list of `project.delete_artifact(...)` calls made, in order. -/
structure DeleteResult where
  project : Project
  calls : List String
deriving DecidableEq, Repr

/-- `delete_data_sources`: outside hybrid mode, delete the job's
`data_source` (when present) and every value of `job.ref_data` from the
project; in hybrid mode do nothing. -/
def delete_data_sources (hybrid : Bool) (project : Project) (job : Job) :
    DeleteResult :=
  if hybrid then ⟨project, []⟩
  else
    let calls :=
      (match job.data_source with
       | some d => [d]
       | none => []) ++ job.ref_data
    ⟨⟨calls.foldl (fun arts a => arts.erase a) project.artifacts⟩, calls⟩

/-- The caller-supplied `refresh_attempts: dict[str, int]`, as a partial
map. -/
def AttemptMap : Type := String → Option Nat

/-- Python dictionary assignment `d[k] = v`. -/
def AttemptMap.set (d : AttemptMap) (k : String) (v : Nat) : AttemptMap :=
  fun k' => if k' = k then some v else d k'

/-- Outcome of `cautiously_refresh_status`: the (possibly refreshed) job,
the (possibly updated) attempt map, and either the returned status or the
exception that escaped the function. -/
structure RefreshResult where
  job : Job
  attempts : AttemptMap
  ret : Except PyError Status

/-- `cautiously_refresh_status`: try `job.refresh()`; on success set
`refresh_attempts[key] = 0`; on any failure run
`refresh_attempts[key] = refresh_attempts[key] + 1` (whose lookup raises
`KeyError` when `key` is absent — the bare `except:` around the refresh
does not cover it); then return `job.status`. -/
def cautiously_refresh_status (job : Job) (key : String)
    (refresh_attempts : AttemptMap) : RefreshResult :=
  match job.refresh_outcome with
  | some s =>
      let j := job.setStatus s
      ⟨j, refresh_attempts.set key 0, .ok j.status⟩
  | none =>
      match refresh_attempts key with
      | some n => ⟨job, refresh_attempts.set key (n + 1), .ok job.status⟩
      | none => ⟨job, refresh_attempts, .error .keyError⟩

/-- An open artifact handle, as `shutil.copyfileobj` consumes it:
`chunks` are the bytes the reads deliver, and `read_fails` says whether
the stream raises after delivering them (a mid-copy failure). -/
structure ArtifactStream where
  chunks : List Nat
  read_fails : Bool

/-- The slice of a `Project`/`Model` used by `download_file_artifact`:
`get_artifact_handle` as a partial map from artifact names to streams —
`none` means entering the handle context manager itself raises. -/
structure GretelObject where
  artifact_handles : String → Option ArtifactStream

/-- A file system, mapping paths to byte contents. -/
def FileSys : Type := String → Option (List Nat)

/-- Writing a file at a path. -/
def FileSys.write (fs : FileSys) (path : String) (content : List Nat) :
    FileSys :=
  fun p => if p = path then some content else fs p

/-- Outcome of the `try` block of `download_file_artifact`: the file
system after the attempt (the exception path can have written to it)
and either success or the exception raised. -/
structure DownloadAttempt where
  fs : FileSys
  result : Except PyError Unit

/-- The `try` block of `download_file_artifact`: open the artifact
handle (raising when it does not exist / the SDK call fails, with
nothing written yet), then `open_artifact(out_path, "wb")` truncates the
destination, and `copyfileobj` writes the bytes it manages to read — so
a mid-copy failure leaves the destination holding the partial prefix. -/
def download_attempt (g : GretelObject) (artifact_name : String)
    (out_path : String) (fs : FileSys) : DownloadAttempt :=
  match g.artifact_handles artifact_name with
  | none => ⟨fs, .error .otherError⟩
  | some stream =>
      if stream.read_fails then
        ⟨fs.write out_path stream.chunks, .error .otherError⟩
      else
        ⟨fs.write out_path stream.chunks, .ok ()⟩

/-- `download_file_artifact`: run the copy, return `True` on success and
on any exception log a warning and return `False`, in both cases with
whatever the attempt left on disk.  Total — no exception escapes. -/
def download_file_artifact (g : GretelObject) (artifact_name : String)
    (out_path : String) (fs : FileSys) : Bool × FileSys :=
  let attempt := download_attempt g artifact_name out_path fs
  match attempt.result with
  | .ok _ => (true, attempt.fs)
  | .error _ => (false, attempt.fs)

/-- A Python value, as far as `sqs_score_from_full_report` can observe
one: ints, strings, `None`, lists, and string-keyed dicts. -/
inductive PyVal where
  | int (n : Int)
  | str (s : String)
  | pynone
  | list (xs : List PyVal)
  | dict (xs : List (String × PyVal))

/-- Python subscripting `v[k]` with a string key: a dict either yields
the stored value or raises `KeyError`; every other shape raises
`TypeError`. -/
def pyGetItem (v : PyVal) (k : String) : Except PyError PyVal :=
  match v with
  | .dict xs =>
      match xs.lookup k with
      | some w => .ok w
      | none => .error .keyError
  | _ => .error .typeError

/-- Python iteration `for x in v`: lists yield their elements, dicts
their keys, strings their one-character substrings; ints and `None`
raise `TypeError`. -/
def pyIter (v : PyVal) : Except PyError (List PyVal) :=
  match v with
  | .list xs => .ok xs
  | .dict xs => .ok (xs.map (fun p => .str p.1))
  | .str s => .ok (s.toList.map (fun c => .str (String.mk [c])))
  | _ => .error .typeError

/-- The Python comparison `field_dict["field"] ==
"synthetic_data_quality_score"`: true exactly for the equal string. -/
def is_target_field : PyVal → Bool
  | .str s => s = "synthetic_data_quality_score"
  | _ => false

/-- The `for field_dict in report["summary"]` loop body: find the first
entry whose `"field"` equals `"synthetic_data_quality_score"` and return
its `"value"`; any `KeyError`/`TypeError` from the subscripts
propagates. -/
def scan_summary (items : List PyVal) : Except PyError (Option PyVal) :=
  match items with
  | [] => .ok none
  | e :: rest =>
      match pyGetItem e "field" with
      | .error err => .error err
      | .ok f =>
          if is_target_field f then
            match pyGetItem e "value" with
            | .error err => .error err
            | .ok v => .ok (some v)
          else scan_summary rest

/-- `sqs_score_from_full_report`: under `suppress(KeyError)`, scan
`report["summary"]` for the quality-score entry; a suppressed `KeyError`
produces `None`, while any other exception (notably `TypeError`)
escapes. -/
def sqs_score_from_full_report (report : List (String × PyVal)) :
    Except PyError (Option PyVal) :=
  let body : Except PyError (Option PyVal) :=
    match report.lookup "summary" with
    | none => .error .keyError
    | some summary =>
        match pyIter summary with
        | .error err => .error err
        | .ok items => scan_summary items
  match body with
  | .error .keyError => .ok none
  | r => r

/-- Log line emitted by `start_job_if_possible`: either the start
message or the deferral message, with the interpolated values. -/
inductive LogMsg where
  | started (table_name action : String)
  | deferred (table_name action : String)
deriving DecidableEq, Repr

/-- `_room_in_project`: always true in hybrid mode, otherwise true iff
the artifact count plus the requested count stays within
`MAX_PROJECT_ARTIFACTS`. -/
def room_in_project (hybrid : Bool) (project : Project) (count : Nat) :
    Bool :=
  if hybrid then true
  else project.artifacts.length + count ≤ MAX_PROJECT_ARTIFACTS

/-- `start_job_if_possible`: submit (and log the start message) when the
job has no data source or the project has room; otherwise only log the
deferral message.  The boolean records whether `job.submit()` was
called. -/
def start_job_if_possible (hybrid : Bool) (job : Job)
    (table_name action : String) (project : Project)
    (number_of_artifacts : Nat) : Bool × LogMsg :=
  if job.data_source.isNone || room_in_project hybrid project number_of_artifacts then
    (true, .started table_name action)
  else
    (false, .deferred table_name action)


/-! ## Helper lemmas -/

/-- The submission condition of `start_job_if_possible`, unfolded to the
three-way disjunction of the spec. -/
theorem submit_cond_iff (hybrid : Bool) (job : Job) (project : Project)
    (n : Nat) :
    (job.data_source.isNone || room_in_project hybrid project n) = true ↔
      (job.data_source = none ∨ hybrid = true ∨
        project.artifacts.length + n ≤ MAX_PROJECT_ARTIFACTS) := by
  cases hybrid <;> cases hds : job.data_source <;>
    simp [room_in_project, hds]

/-- The summary entry the spec says `sqs_score_from_full_report` should
pick: the first dictionary whose `"field"` is the quality-score name. -/
def first_sqs_entry (ds : List (List (String × PyVal))) :
    Option (List (String × PyVal)) :=
  ds.find? (fun d =>
    match d.lookup "field" with
    | some v => is_target_field v
    | none => false)

/-- Value of the scan loop on a summary made of dictionaries that all
carry a `"field"` key: the `"value"` of the first matching entry, a
`KeyError` when that entry has no `"value"`, `none` when nothing
matches. -/
theorem scan_summary_dicts (ds : List (List (String × PyVal)))
    (h : ∀ d ∈ ds, (d.lookup "field").isSome) :
    scan_summary (ds.map PyVal.dict) =
      match first_sqs_entry ds with
      | some d =>
          match d.lookup "value" with
          | some v => .ok (some v)
          | none => .error .keyError
      | none => .ok none := by
  induction ds with
  | nil => simp [scan_summary, first_sqs_entry]
  | cons d ds ih =>
      have hd : (d.lookup "field").isSome := h d (by simp)
      obtain ⟨v, hv⟩ := Option.isSome_iff_exists.mp hd
      have ih' := ih (fun d' hd' => h d' (by simp [hd']))
      by_cases ht : is_target_field v = true
      · simp only [List.map, scan_summary, pyGetItem, hv, ht, if_true,
          first_sqs_entry, List.find?]
        cases d.lookup "value" <;> simp
      · simp only [List.map, scan_summary, pyGetItem, hv, ht, if_false,
          first_sqs_entry, List.find?, Bool.false_eq_true]
        simpa [first_sqs_entry] using ih'

/-- The scan walks past any run of dictionaries whose `"field"` is
present but not the quality-score name. -/
theorem scan_summary_skips_nonmatching (pre l : List PyVal)
    (h : ∀ e ∈ pre, ∃ d, e = PyVal.dict d ∧
      ∃ v, d.lookup "field" = some v ∧ is_target_field v = false) :
    scan_summary (pre ++ l) = scan_summary l := by
  induction pre with
  | nil => rfl
  | cons e pre ih =>
      obtain ⟨d, he, v, hv, ht⟩ := h e (by simp)
      subst he
      rw [List.cons_append]
      simp only [scan_summary, pyGetItem, hv, ht, Bool.false_eq_true,
        if_false]
      exact ih (fun e he => h e (by simp [he]))

/-! ## Claim theorems -/

/-- C1: `start_job_if_possible` submits exactly when the job has no
`data_source`, or hybrid mode is on, or the project's artifact count
plus the requested count stays within `MAX_PROJECT_ARTIFACTS = 10000`;
it logs the start message when it submits and only the deferral message
when it does not. -/
theorem start_job_if_possible_submits_iff (hybrid : Bool) (job : Job)
    (table_name action : String) (project : Project) (n : Nat) :
    ((start_job_if_possible hybrid job table_name action project n).1 = true ↔
      (job.data_source = none ∨ hybrid = true ∨
        project.artifacts.length + n ≤ MAX_PROJECT_ARTIFACTS))
    ∧ (start_job_if_possible hybrid job table_name action project n).2 =
      (if (start_job_if_possible hybrid job table_name action project n).1
       then LogMsg.started table_name action
       else LogMsg.deferred table_name action) := by
  have hc := submit_cond_iff hybrid job project n
  unfold start_job_if_possible
  by_cases h : (job.data_source.isNone || room_in_project hybrid project n) = true
  · rw [if_pos h]
    exact ⟨Iff.intro (fun _ => hc.mp h) (fun _ => rfl), rfl⟩
  · rw [if_neg h]
    exact ⟨Iff.intro (fun hf => absurd hf Bool.false_ne_true)
      (fun hp => absurd (hc.mpr hp) h), rfl⟩

/-- C3: `get_job_id` returns the `model_id` for a `Model`, the
`record_id` for a `RecordHandler`, and raises
`MultiTableException("Unexpected job object")` for any other variant;
no other outcome is possible. -/
theorem get_job_id_trichotomy (job : Job) :
    (∃ mid, job.kind = .model mid ∧ get_job_id job = .ok mid) ∨
    (∃ rid, job.kind = .record_handler rid ∧ get_job_id job = .ok rid) ∨
    (job.kind = .other ∧
      get_job_id job = .error ⟨"Unexpected job object"⟩) := by
  cases h : job.kind with
  | model mid => exact Or.inl ⟨mid, rfl, by simp [get_job_id, h]⟩
  | record_handler rid => exact Or.inr (Or.inl ⟨rid, rfl, by simp [get_job_id, h]⟩)
  | other => exact Or.inr (Or.inr ⟨rfl, by simp [get_job_id, h]⟩)

/-- C5: in hybrid mode `delete_data_sources` issues no
`delete_artifact` call and leaves the project untouched, for every
project and job. -/
theorem delete_data_sources_hybrid_noop (project : Project) (job : Job) :
    delete_data_sources true project job = ⟨project, []⟩ := rfl

/-- C6: outside hybrid mode the artifacts deleted by
`delete_data_sources` are exactly the job's `data_source` (when not
`None`) and the job's `ref_data` values — nothing else. -/
theorem delete_data_sources_calls_iff (project : Project) (job : Job)
    (a : String) :
    a ∈ (delete_data_sources false project job).calls ↔
      (job.data_source = some a ∨ a ∈ job.ref_data) := by
  cases h : job.data_source <;>
    simp [delete_data_sources, h, eq_comm]

/-- C2 (amended): when `refresh()` succeeds, the attempt counter at the
key is set to zero and the refreshed status is returned; when it fails
and the key is present, that counter grows by exactly one, the job's
status is untouched and returned.  (When it fails and the key is
absent, a `KeyError` escapes instead — see the counterexample.) -/
theorem cautiously_refresh_status_contract (job : Job) (key : String)
    (d : AttemptMap) :
    (∀ s, job.refresh_outcome = some s →
      cautiously_refresh_status job key d =
        ⟨job.setStatus s, d.set key 0, .ok s⟩)
    ∧ (∀ n, job.refresh_outcome = none → d key = some n →
      cautiously_refresh_status job key d =
        ⟨job, d.set key (n + 1), .ok job.status⟩) := by
  constructor
  · intro s h
    simp [cautiously_refresh_status, h, Job.setStatus]
  · intro n h1 h2
    simp [cautiously_refresh_status, h1, h2]

/-- C2 witness: one successful refresh and one failed refresh with the
key present, both evaluated concretely. -/
theorem cautiously_refresh_status_contract_witness :
    cautiously_refresh_status ⟨.other, none, [], .pending, some .active⟩
        "t" (fun _ => none) =
      ⟨Job.setStatus ⟨.other, none, [], .pending, some .active⟩ .active,
        AttemptMap.set (fun _ => none) "t" 0, .ok .active⟩
    ∧ cautiously_refresh_status ⟨.other, none, [], .pending, none⟩
        "t" (fun _ => some 3) =
      ⟨⟨.other, none, [], .pending, none⟩,
        AttemptMap.set (fun _ => some 3) "t" 4, .ok .pending⟩ :=
  ⟨(cautiously_refresh_status_contract ⟨.other, none, [], .pending, some .active⟩
      "t" (fun _ => none)).1 .active rfl,
   (cautiously_refresh_status_contract ⟨.other, none, [], .pending, none⟩
      "t" (fun _ => some 3)).2 3 rfl rfl⟩

/-- C2 counterexample: a failed refresh with the key absent from the
mapping does not increment anything and does not return the status — a
`KeyError` escapes. -/
theorem cautiously_refresh_status_missing_key_cex :
    (cautiously_refresh_status ⟨.other, none, [], .active, none⟩ "table"
        (fun _ => none)).ret = .error .keyError
    ∧ (cautiously_refresh_status ⟨.other, none, [], .active, none⟩ "table"
        (fun _ => none)).attempts "table" = none :=
  ⟨rfl, rfl⟩

/-- C8: when the refresh fails and the key is missing from
`refresh_attempts`, the `KeyError` from the increment propagates: no
status is returned, and neither the mapping nor the job changes. -/
theorem cautiously_refresh_status_missing_key_raises (job : Job)
    (key : String) (d : AttemptMap) (h1 : job.refresh_outcome = none)
    (h2 : d key = none) :
    (cautiously_refresh_status job key d).ret = .error .keyError
    ∧ (cautiously_refresh_status job key d).attempts = d
    ∧ (cautiously_refresh_status job key d).job = job := by
  refine ⟨?_, ?_, ?_⟩ <;> simp [cautiously_refresh_status, h1, h2]

/-- C8 witness: the missing-key failure at a concrete job and empty
mapping. -/
theorem cautiously_refresh_status_missing_key_raises_witness :
    (cautiously_refresh_status ⟨.other, none, [], .lost, none⟩ "k"
        (fun _ => none)).ret = .error .keyError
    ∧ (cautiously_refresh_status ⟨.other, none, [], .lost, none⟩ "k"
        (fun _ => none)).attempts = (fun _ => none)
    ∧ (cautiously_refresh_status ⟨.other, none, [], .lost, none⟩ "k"
        (fun _ => none)).job = ⟨.other, none, [], .lost, none⟩ :=
  cautiously_refresh_status_missing_key_raises
    ⟨.other, none, [], .lost, none⟩ "k" (fun _ => none) rfl rfl

/-- C9: `cautiously_refresh_status` modifies at most the entry at the
caller-supplied key: every other key of the mapping reads the same
before and after, on the success, failure, and `KeyError` paths
alike. -/
theorem cautiously_refresh_status_frame (job : Job) (key : String)
    (d : AttemptMap) (k' : String) (h : k' ≠ key) :
    (cautiously_refresh_status job key d).attempts k' = d k' := by
  unfold cautiously_refresh_status
  cases h1 : job.refresh_outcome with
  | some s => simp [AttemptMap.set, h]
  | none =>
      cases h2 : d key with
      | some n => simp [h2, AttemptMap.set, h]
      | none => simp [h2]

/-- C9 witness: a failed refresh at key `"a"` leaves key `"b"`
unchanged, at a concrete mapping. -/
theorem cautiously_refresh_status_frame_witness :
    (cautiously_refresh_status ⟨.other, none, [], .active, none⟩ "a"
        (fun _ => some 7)).attempts "b" = some 7 :=
  cautiously_refresh_status_frame ⟨.other, none, [], .active, none⟩ "a"
    (fun _ => some 7) "b" (by decide)

/-- C4 counterexample: a report whose `"summary"` is present but not
iterable makes `sqs_score_from_full_report` raise a `TypeError` instead
of silently returning `None` — `suppress` only covers `KeyError`. -/
theorem sqs_score_malformed_raises_cex :
    sqs_score_from_full_report [("summary", PyVal.int 5)] =
      .error .typeError := rfl

/-- C4 (amended): on a summary made of dictionaries that each carry a
`"field"` key, `sqs_score_from_full_report` returns the `"value"` of the
first entry whose `"field"` is `"synthetic_data_quality_score"`, and
`None` when no entry matches or the matching entry has no `"value"`;
`KeyError`s (absent `"summary"`, absent `"field"`, absent `"value"`)
yield `None` silently, but a `TypeError` from a malformed structure
propagates. -/
theorem sqs_score_first_match (report : List (String × PyVal))
    (ds : List (List (String × PyVal)))
    (h1 : report.lookup "summary" = some (.list (ds.map PyVal.dict)))
    (h2 : ∀ d ∈ ds, (d.lookup "field").isSome) :
    sqs_score_from_full_report report =
      .ok ((first_sqs_entry ds).bind (fun d => d.lookup "value")) := by
  unfold sqs_score_from_full_report
  rw [h1]
  simp only [pyIter]
  rw [scan_summary_dicts ds h2]
  cases hf : first_sqs_entry ds with
  | none => rfl
  | some d =>
      cases hv : d.lookup "value" with
      | none => simp [hv]
      | some v => simp [hv]

/-- C4 witness: a two-entry summary where the second entry matches; the
returned score is its `"value"`. -/
theorem sqs_score_first_match_witness :
    sqs_score_from_full_report
      [("summary", PyVal.list
        [PyVal.dict [("field", PyVal.str "other"), ("value", PyVal.int 1)],
         PyVal.dict [("field", PyVal.str "synthetic_data_quality_score"),
           ("value", PyVal.int 88)]])] = .ok (some (PyVal.int 88)) := by
  have h := sqs_score_first_match
    [("summary", PyVal.list
      [PyVal.dict [("field", PyVal.str "other"), ("value", PyVal.int 1)],
       PyVal.dict [("field", PyVal.str "synthetic_data_quality_score"),
         ("value", PyVal.int 88)]])]
    [[("field", PyVal.str "other"), ("value", PyVal.int 1)],
     [("field", PyVal.str "synthetic_data_quality_score"),
       ("value", PyVal.int 88)]]
    rfl (by
      intro d hd
      simp only [List.mem_cons, List.not_mem_nil, or_false] at hd
      rcases hd with rfl | rfl <;> rfl)
  simpa [first_sqs_entry, is_target_field, List.find?, List.lookup] using h

/-- C10: a summary entry before the first match that lacks the
`"field"` key — preceded by any run of well-formed non-matching
entries — makes the whole extraction return `None`: the `KeyError`
aborts the scan even when a matching entry follows. -/
theorem sqs_score_early_missing_field (report : List (String × PyVal))
    (pre : List PyVal) (d : List (String × PyVal)) (rest : List PyVal)
    (hpre : ∀ e ∈ pre, ∃ d', e = PyVal.dict d' ∧
      ∃ v, d'.lookup "field" = some v ∧ is_target_field v = false)
    (h1 : report.lookup "summary" = some (.list (pre ++ .dict d :: rest)))
    (h2 : d.lookup "field" = none) :
    sqs_score_from_full_report report = .ok none := by
  unfold sqs_score_from_full_report
  rw [h1]
  simp only [pyIter]
  rw [scan_summary_skips_nonmatching pre (.dict d :: rest) hpre]
  simp [scan_summary, pyGetItem, h2]

/-- C10 witness: a non-matching first entry, a second entry with no
`"field"`, and a full match third — the result is still `None`. -/
theorem sqs_score_early_missing_field_witness :
    sqs_score_from_full_report
      [("summary", PyVal.list
        [PyVal.dict [("field", PyVal.str "other")],
         PyVal.dict [],
         PyVal.dict [("field", PyVal.str "synthetic_data_quality_score"),
           ("value", PyVal.int 95)]])] = .ok none :=
  sqs_score_early_missing_field
    [("summary", PyVal.list
      [PyVal.dict [("field", PyVal.str "other")],
       PyVal.dict [],
       PyVal.dict [("field", PyVal.str "synthetic_data_quality_score"),
         ("value", PyVal.int 95)]])]
    [PyVal.dict [("field", PyVal.str "other")]] [] _
    (by
      intro e he
      simp only [List.mem_singleton] at he
      subst he
      exact ⟨[("field", PyVal.str "other")], rfl, PyVal.str "other",
        rfl, rfl⟩)
    rfl rfl

/-- C7: `download_file_artifact` returns `True` exactly when the copy
succeeds — the full byte stream then sits at the destination — and
`False` on any exception, never raising itself (it is total); the file
system it returns is whatever the attempt left: untouched when the
handle could not be opened, the partial prefix when the copy failed
after `open_artifact(out_path, "wb")` truncated the destination. -/
theorem download_file_artifact_contract (g : GretelObject)
    (artifact_name out_path : String) (fs : FileSys) :
    ((download_file_artifact g artifact_name out_path fs).1 = true ↔
      (download_attempt g artifact_name out_path fs).result = .ok ())
    ∧ (download_file_artifact g artifact_name out_path fs).2 =
        (download_attempt g artifact_name out_path fs).fs
    ∧ (∀ stream, g.artifact_handles artifact_name = some stream →
        stream.read_fails = false →
        download_file_artifact g artifact_name out_path fs =
          (true, fs.write out_path stream.chunks))
    ∧ (g.artifact_handles artifact_name = none →
        download_file_artifact g artifact_name out_path fs = (false, fs))
    ∧ (∀ stream, g.artifact_handles artifact_name = some stream →
        stream.read_fails = true →
        download_file_artifact g artifact_name out_path fs =
          (false, fs.write out_path stream.chunks)) := by
  refine ⟨?_, ?_, ?_, ?_, ?_⟩
  · cases h : g.artifact_handles artifact_name with
    | none => simp [download_file_artifact, download_attempt, h]
    | some stream =>
        cases hr : stream.read_fails <;>
          simp [download_file_artifact, download_attempt, h, hr]
  · cases h : g.artifact_handles artifact_name with
    | none => simp [download_file_artifact, download_attempt, h]
    | some stream =>
        cases hr : stream.read_fails <;>
          simp [download_file_artifact, download_attempt, h, hr]
  · intro stream h hr
    simp [download_file_artifact, download_attempt, h, hr]
  · intro h
    simp [download_file_artifact, download_attempt, h]
  · intro stream h hr
    simp [download_file_artifact, download_attempt, h, hr]

/-- C7 witness: a clean copy (`True`, file written), a handle that does
not open (`False`, file system untouched), and a mid-copy failure
(`False`, destination left holding the partial prefix). -/
theorem download_file_artifact_contract_witness :
    download_file_artifact ⟨fun _ => some ⟨[7, 8], false⟩⟩ "report" "out"
        (fun _ => none) =
      (true, FileSys.write (fun _ => none) "out" [7, 8])
    ∧ download_file_artifact ⟨fun _ => none⟩ "report" "out"
        (fun _ => none) = (false, fun _ => none)
    ∧ download_file_artifact ⟨fun _ => some ⟨[7], true⟩⟩ "report" "out"
        (fun _ => none) =
      (false, FileSys.write (fun _ => none) "out" [7]) :=
  ⟨(download_file_artifact_contract ⟨fun _ => some ⟨[7, 8], false⟩⟩
      "report" "out" (fun _ => none)).2.2.1 ⟨[7, 8], false⟩ rfl rfl,
   (download_file_artifact_contract ⟨fun _ => none⟩
      "report" "out" (fun _ => none)).2.2.2.1 rfl,
   (download_file_artifact_contract ⟨fun _ => some ⟨[7], true⟩⟩
      "report" "out" (fun _ => none)).2.2.2.2 ⟨[7], true⟩ rfl rfl⟩
